import Mathlib

/-!
Verification of the Polly-API client (`src/client.py`).

The client performs one synchronous HTTP call per operation and classifies
the response status.  We embed it shallowly: JSON values become an inductive
type, a request is a record of method, URL, query parameters, headers and
body, and the transport is an explicit function from requests to responses.
Each operation returns the list of requests it issued (always a singleton in
this client) together with its outcome, an `Except` over the error taxonomy.
`ValueError` cases in the Python source become the dedicated error
constructors; `response.raise_for_status()` from the `requests` library
raises exactly when the status lies in 400..599, which we reproduce.
-/

namespace Polly

/-- A JSON value, the decoded form of every request and response body.
Numbers are integers, which covers every payload this client builds. -/
inductive Json where
  | null : Json
  | bool (b : Bool) : Json
  | num (n : Int) : Json
  | str (s : String) : Json
  | arr (elems : List Json) : Json
  | obj (fields : List (String × Json)) : Json
deriving Repr

/-- An HTTP request as built by the client: method, URL, query parameters
(the `params` argument of `requests.get`), headers, and an optional JSON
body (the client serialises the payload with `json.dumps`; we carry the
JSON value itself). -/
structure HttpRequest where
  method : String
  url : String
  params : List (String × Int)
  headers : List (String × String)
  body : Option Json
deriving Repr

/-- An HTTP response as seen by the client: numeric status code and the
decoded JSON body. -/
structure HttpResponse where
  status : Nat
  body : Json
deriving Repr

/-- The error taxonomy surfaced to callers: the three `ValueError` cases of
the source and the `HTTPError` escaping from `raise_for_status`, which
carries the status code. -/
inductive ClientError where
  | DuplicateUsername : ClientError
  | Unauthorized : ClientError
  | NotFound : ClientError
  | RequestFailed (status : Nat) : ClientError
deriving Repr

/-- `requests.Response.raise_for_status`: raises an `HTTPError` exactly when
the status code is in 400..499 (client error) or 500..599 (server error),
and does nothing otherwise. -/
def raise_for_status (response : HttpResponse) : Except ClientError Unit :=
  if 400 ≤ response.status ∧ response.status < 600 then
    Except.error (ClientError.RequestFailed response.status)
  else
    Except.ok ()

/-- The request built by `register_user` before sending: URL
`{base_url}/register`, `Content-Type: application/json` header, JSON payload
`{"username": username, "password": password}`, sent with `requests.post`. -/
def register_user_request (username password base_url : String) : HttpRequest :=
  { method := "POST"
    url := base_url ++ "/register"
    params := []
    headers := [("Content-Type", "application/json")]
    body := some (Json.obj
      [("username", Json.str username), ("password", Json.str password)]) }

/-- `register_user` from `src/client.py`: sends the registration request and
classifies the response: 200 returns the decoded body, 400 raises
`ValueError` (duplicate username), otherwise `raise_for_status` runs and, if
it does not raise, the decoded body is returned. -/
def register_user (send : HttpRequest → HttpResponse)
    (username password base_url : String) :
    List HttpRequest × Except ClientError Json :=
  let req := register_user_request username password base_url
  let response := send req
  ([req],
    if response.status = 200 then
      Except.ok response.body
    else if response.status = 400 then
      Except.error ClientError.DuplicateUsername
    else
      match raise_for_status response with
      | Except.error e => Except.error e
      | Except.ok () => Except.ok response.body)

/-- The request built by `get_polls` before sending: URL `{base_url}/polls`
with query parameters `skip` and `limit` passed through unchanged, sent with
`requests.get`. -/
def get_polls_request (skip limit : Int) (base_url : String) : HttpRequest :=
  { method := "GET"
    url := base_url ++ "/polls"
    params := [("skip", skip), ("limit", limit)]
    headers := []
    body := none }

/-- `get_polls` from `src/client.py`: sends the paginated listing request,
runs `raise_for_status`, and returns the decoded body when it does not
raise. -/
def get_polls (send : HttpRequest → HttpResponse)
    (skip limit : Int) (base_url : String) :
    List HttpRequest × Except ClientError Json :=
  let req := get_polls_request skip limit base_url
  let response := send req
  ([req],
    match raise_for_status response with
    | Except.error e => Except.error e
    | Except.ok () => Except.ok response.body)

/-- The request built by `vote_on_poll` before sending: URL
`{base_url}/polls/{poll_id}/vote`, `Content-Type` and
`Authorization: Bearer {access_token}` headers, JSON payload
`{"option_id": option_id}`, sent with `requests.post`. -/
def vote_on_poll_request (poll_id option_id : Int)
    (access_token base_url : String) : HttpRequest :=
  { method := "POST"
    url := base_url ++ "/polls/" ++ toString poll_id ++ "/vote"
    params := []
    headers := [("Content-Type", "application/json"),
                ("Authorization", "Bearer " ++ access_token)]
    body := some (Json.obj [("option_id", Json.num option_id)]) }

/-- `vote_on_poll` from `src/client.py`: sends the vote request and
classifies the response: 200 returns the decoded body, 401 raises
`ValueError` (unauthorized), 404 raises `ValueError` (poll or option not
found), otherwise `raise_for_status` runs and, if it does not raise, the
decoded body is returned. -/
def vote_on_poll (send : HttpRequest → HttpResponse)
    (poll_id option_id : Int) (access_token base_url : String) :
    List HttpRequest × Except ClientError Json :=
  let req := vote_on_poll_request poll_id option_id access_token base_url
  let response := send req
  ([req],
    if response.status = 200 then
      Except.ok response.body
    else if response.status = 401 then
      Except.error ClientError.Unauthorized
    else if response.status = 404 then
      Except.error ClientError.NotFound
    else
      match raise_for_status response with
      | Except.error e => Except.error e
      | Except.ok () => Except.ok response.body)

/-- The request built by `get_poll_results` before sending: URL
`{base_url}/polls/{poll_id}/results`, no headers or body, sent with
`requests.get`. -/
def get_poll_results_request (poll_id : Int) (base_url : String) :
    HttpRequest :=
  { method := "GET"
    url := base_url ++ "/polls/" ++ toString poll_id ++ "/results"
    params := []
    headers := []
    body := none }

/-- `get_poll_results` from `src/client.py`: sends the results request and
classifies the response: 200 returns the decoded body, 404 raises
`ValueError` (poll not found), otherwise `raise_for_status` runs and, if it
does not raise, the decoded body is returned. -/
def get_poll_results (send : HttpRequest → HttpResponse)
    (poll_id : Int) (base_url : String) :
    List HttpRequest × Except ClientError Json :=
  let req := get_poll_results_request poll_id base_url
  let response := send req
  ([req],
    if response.status = 200 then
      Except.ok response.body
    else if response.status = 404 then
      Except.error ClientError.NotFound
    else
      match raise_for_status response with
      | Except.error e => Except.error e
      | Except.ok () => Except.ok response.body)

/-- Modelled from the spec: the polling service itself (the handler behind
`GET /polls`) is not part of `src/`, which contains only the client.  The
spec states that a successful (status 200) response to the listing request
carries a decoded JSON array of length at most `limit`.  A transport
conforms when every 200 response it gives to a request built by `get_polls`
satisfies that bound. -/
def pollsServiceConforming (send : HttpRequest → HttpResponse) : Prop :=
  ∀ skip limit : Int, ∀ base_url : String,
    (send (get_polls_request skip limit base_url)).status = 200 →
    ∃ elems : List Json,
      (send (get_polls_request skip limit base_url)).body = Json.arr elems ∧
      (elems.length : Int) ≤ limit

/-- A conforming transport used as a concrete instance: it serves an empty
poll list for the page `skip = 0, limit = 5` and answers 404 to every other
request. -/
def demoPollsSend : HttpRequest → HttpResponse := fun req =>
  if req.params = [("skip", 0), ("limit", 5)] then
    { status := 200, body := Json.arr [] }
  else
    { status := 404, body := Json.null }

/-- `demoPollsSend` satisfies the spec-modelled service bound. -/
theorem demoPollsSend_conforming : pollsServiceConforming demoPollsSend := by
  intro skip limit base_url h200
  by_cases hc : ([("skip", skip), ("limit", limit)] : List (String × Int)) =
      [("skip", 0), ("limit", 5)]
  · have hboth : skip = 0 ∧ limit = 5 := by
      simpa [List.cons.injEq, Prod.mk.injEq] using hc
    refine ⟨[], ?_, ?_⟩
    · simp [demoPollsSend, get_polls_request, hc]
    · rw [hboth.2]; decide
  · exfalso
    simp [demoPollsSend, get_polls_request, hc] at h200

/-- C1 (counterexample): the claim says every non-2xx status other than 400
signals a `RequestFailed` error, but on a 301 redirect `register_user`
signals nothing and returns the decoded body: `raise_for_status` only raises
for statuses in 400..599. -/
theorem register_user_redirect_counterexample :
    (register_user (fun _ => { status := 301, body := Json.str "moved" })
        "alice" "pw123" "http://localhost:8000").2 = Except.ok (Json.str "moved") ∧
    (register_user (fun _ => { status := 301, body := Json.str "moved" })
        "alice" "pw123" "http://localhost:8000").2 ≠
      Except.error (ClientError.RequestFailed 301) := by
  refine ⟨rfl, ?_⟩
  intro h
  simp [register_user, register_user_request, raise_for_status] at h

/-- C1 (amended): for every response to `register_user`, status 200 returns
the decoded body, status 400 signals `DuplicateUsername`, and every other
status in the 4xx/5xx range signals `RequestFailed` carrying the numeric
status code.  (Statuses outside 400..599 do not raise: see the
counterexample.) -/
theorem register_user_status_mapping
    (send : HttpRequest → HttpResponse) (username password base_url : String)
    (r : HttpResponse)
    (hr : send (register_user_request username password base_url) = r) :
    (r.status = 200 →
      (register_user send username password base_url).2 = Except.ok r.body) ∧
    (r.status = 400 →
      (register_user send username password base_url).2 =
        Except.error ClientError.DuplicateUsername) ∧
    (r.status ≠ 400 → 400 ≤ r.status → r.status < 600 →
      (register_user send username password base_url).2 =
        Except.error (ClientError.RequestFailed r.status)) := by
  subst hr
  refine ⟨fun h200 => ?_, fun h400 => ?_, fun hne h4 h6 => ?_⟩
  · simp [register_user, h200]
  · simp [register_user, h400]
  · have h200 : (send (register_user_request username password base_url)).status ≠ 200 := by
      omega
    simp [register_user, raise_for_status, h200, hne, h4, h6]

/-- C1 (witness): the three branches of the amended mapping, exercised at
statuses 200, 400 and 503. -/
theorem register_user_status_mapping_witness :
    (register_user (fun _ => { status := 200, body := Json.null })
        "alice" "pw123" "http://localhost:8000").2 = Except.ok Json.null ∧
    (register_user (fun _ => { status := 400, body := Json.null })
        "alice" "pw123" "http://localhost:8000").2 =
      Except.error ClientError.DuplicateUsername ∧
    (register_user (fun _ => { status := 503, body := Json.null })
        "alice" "pw123" "http://localhost:8000").2 =
      Except.error (ClientError.RequestFailed 503) :=
  ⟨(register_user_status_mapping _ "alice" "pw123" "http://localhost:8000" _ rfl).1 rfl,
   (register_user_status_mapping _ "alice" "pw123" "http://localhost:8000" _ rfl).2.1 rfl,
   (register_user_status_mapping _ "alice" "pw123" "http://localhost:8000" _ rfl).2.2
     (by decide) (by decide) (by decide)⟩

/-- C2 (counterexample): the claim says every non-2xx status other than 401
and 404 signals a `RequestFailed` error, but on a 302 redirect
`vote_on_poll` signals nothing and returns the decoded body:
`raise_for_status` only raises for statuses in 400..599. -/
theorem vote_on_poll_redirect_counterexample :
    (vote_on_poll (fun _ => { status := 302, body := Json.str "found" })
        1 2 "token123" "http://localhost:8000").2 = Except.ok (Json.str "found") ∧
    (vote_on_poll (fun _ => { status := 302, body := Json.str "found" })
        1 2 "token123" "http://localhost:8000").2 ≠
      Except.error (ClientError.RequestFailed 302) := by
  refine ⟨rfl, ?_⟩
  intro h
  simp [vote_on_poll, vote_on_poll_request, raise_for_status] at h

/-- C2 (amended): for every response to `vote_on_poll`, status 200 returns
the decoded body, status 401 signals `Unauthorized`, status 404 signals
`NotFound`, and every other status in the 4xx/5xx range signals
`RequestFailed`.  (Statuses outside 400..599 do not raise: see the
counterexample.) -/
theorem vote_on_poll_status_mapping
    (send : HttpRequest → HttpResponse) (poll_id option_id : Int)
    (access_token base_url : String) (r : HttpResponse)
    (hr : send (vote_on_poll_request poll_id option_id access_token base_url) = r) :
    (r.status = 200 →
      (vote_on_poll send poll_id option_id access_token base_url).2 =
        Except.ok r.body) ∧
    (r.status = 401 →
      (vote_on_poll send poll_id option_id access_token base_url).2 =
        Except.error ClientError.Unauthorized) ∧
    (r.status = 404 →
      (vote_on_poll send poll_id option_id access_token base_url).2 =
        Except.error ClientError.NotFound) ∧
    (r.status ≠ 401 → r.status ≠ 404 → 400 ≤ r.status → r.status < 600 →
      (vote_on_poll send poll_id option_id access_token base_url).2 =
        Except.error (ClientError.RequestFailed r.status)) := by
  subst hr
  refine ⟨fun h200 => ?_, fun h401 => ?_, fun h404 => ?_,
    fun hne₁ hne₂ h4 h6 => ?_⟩
  · simp [vote_on_poll, h200]
  · simp [vote_on_poll, h401]
  · simp [vote_on_poll, h404]
  · have h200 : (send (vote_on_poll_request poll_id option_id access_token
        base_url)).status ≠ 200 := by omega
    simp [vote_on_poll, raise_for_status, h200, hne₁, hne₂, h4, h6]

/-- C2 (witness): the four branches of the amended mapping, exercised at
statuses 200, 401, 404 and 500. -/
theorem vote_on_poll_status_mapping_witness :
    (vote_on_poll (fun _ => { status := 200, body := Json.null })
        1 2 "token123" "http://localhost:8000").2 = Except.ok Json.null ∧
    (vote_on_poll (fun _ => { status := 401, body := Json.null })
        1 2 "token123" "http://localhost:8000").2 =
      Except.error ClientError.Unauthorized ∧
    (vote_on_poll (fun _ => { status := 404, body := Json.null })
        1 2 "token123" "http://localhost:8000").2 =
      Except.error ClientError.NotFound ∧
    (vote_on_poll (fun _ => { status := 500, body := Json.null })
        1 2 "token123" "http://localhost:8000").2 =
      Except.error (ClientError.RequestFailed 500) :=
  ⟨(vote_on_poll_status_mapping _ 1 2 "token123" "http://localhost:8000" _ rfl).1 rfl,
   (vote_on_poll_status_mapping _ 1 2 "token123" "http://localhost:8000" _ rfl).2.1 rfl,
   (vote_on_poll_status_mapping _ 1 2 "token123" "http://localhost:8000" _ rfl).2.2.1 rfl,
   (vote_on_poll_status_mapping _ 1 2 "token123" "http://localhost:8000" _ rfl).2.2.2
     (by decide) (by decide) (by decide) (by decide)⟩

/-- C3 (counterexample): the claim says every non-2xx status other than 404
signals a `RequestFailed` error, but on a 300 response `get_poll_results`
signals nothing and returns the decoded body: `raise_for_status` only raises
for statuses in 400..599. -/
theorem get_poll_results_redirect_counterexample :
    (get_poll_results (fun _ => { status := 300, body := Json.str "choices" })
        7 "http://localhost:8000").2 = Except.ok (Json.str "choices") ∧
    (get_poll_results (fun _ => { status := 300, body := Json.str "choices" })
        7 "http://localhost:8000").2 ≠
      Except.error (ClientError.RequestFailed 300) := by
  refine ⟨rfl, ?_⟩
  intro h
  simp [get_poll_results, get_poll_results_request, raise_for_status] at h

/-- C3 (amended): for every response to `get_poll_results`, status 200
returns the decoded body, status 404 signals `NotFound`, and every other
status in the 4xx/5xx range signals `RequestFailed`.  (Statuses outside
400..599 do not raise: see the counterexample.) -/
theorem get_poll_results_status_mapping
    (send : HttpRequest → HttpResponse) (poll_id : Int) (base_url : String)
    (r : HttpResponse)
    (hr : send (get_poll_results_request poll_id base_url) = r) :
    (r.status = 200 →
      (get_poll_results send poll_id base_url).2 = Except.ok r.body) ∧
    (r.status = 404 →
      (get_poll_results send poll_id base_url).2 =
        Except.error ClientError.NotFound) ∧
    (r.status ≠ 404 → 400 ≤ r.status → r.status < 600 →
      (get_poll_results send poll_id base_url).2 =
        Except.error (ClientError.RequestFailed r.status)) := by
  subst hr
  refine ⟨fun h200 => ?_, fun h404 => ?_, fun hne h4 h6 => ?_⟩
  · simp [get_poll_results, h200]
  · simp [get_poll_results, h404]
  · have h200 : (send (get_poll_results_request poll_id base_url)).status ≠ 200 := by
      omega
    simp [get_poll_results, raise_for_status, h200, hne, h4, h6]

/-- C3 (witness): the three branches of the amended mapping, exercised at
statuses 200, 404 and 422. -/
theorem get_poll_results_status_mapping_witness :
    (get_poll_results (fun _ => { status := 200, body := Json.null })
        7 "http://localhost:8000").2 = Except.ok Json.null ∧
    (get_poll_results (fun _ => { status := 404, body := Json.null })
        7 "http://localhost:8000").2 = Except.error ClientError.NotFound ∧
    (get_poll_results (fun _ => { status := 422, body := Json.null })
        7 "http://localhost:8000").2 =
      Except.error (ClientError.RequestFailed 422) :=
  ⟨(get_poll_results_status_mapping _ 7 "http://localhost:8000" _ rfl).1 rfl,
   (get_poll_results_status_mapping _ 7 "http://localhost:8000" _ rfl).2.1 rfl,
   (get_poll_results_status_mapping _ 7 "http://localhost:8000" _ rfl).2.2
     (by decide) (by decide) (by decide)⟩

/-- C4: against a transport satisfying the spec-modelled service bound, a
successful (status 200) call to `get_polls` returns a JSON array of length
at most `limit`, for every `skip` and `limit`. -/
theorem get_polls_length_le_limit
    (send : HttpRequest → HttpResponse) (skip limit : Int) (base_url : String)
    (hconf : pollsServiceConforming send)
    (h200 : (send (get_polls_request skip limit base_url)).status = 200) :
    ∃ elems : List Json,
      (get_polls send skip limit base_url).2 = Except.ok (Json.arr elems) ∧
      (elems.length : Int) ≤ limit := by
  obtain ⟨elems, hbody, hlen⟩ := hconf skip limit base_url h200
  refine ⟨elems, ?_, hlen⟩
  simp [get_polls, raise_for_status, h200, hbody]

/-- C4 (witness): listing the first page against the conforming demo
transport yields an array of at most 5 elements. -/
theorem get_polls_length_le_limit_witness :
    ∃ elems : List Json,
      (get_polls demoPollsSend 0 5 "http://localhost:8000").2 =
        Except.ok (Json.arr elems) ∧ (elems.length : Int) ≤ 5 :=
  get_polls_length_le_limit demoPollsSend 0 5 "http://localhost:8000"
    demoPollsSend_conforming (by decide)

/-- C5: for every username, password and base address, `register_user`
issues exactly one request; it is a POST to the base address joined with
`/register`, carries the `Content-Type: application/json` header, and its
body is the JSON object with the given username and password. -/
theorem register_user_sends_single_post
    (send : HttpRequest → HttpResponse) (username password base_url : String) :
    ∃ req : HttpRequest,
      (register_user send username password base_url).1 = [req] ∧
      req.method = "POST" ∧
      req.url = base_url ++ "/register" ∧
      ("Content-Type", "application/json") ∈ req.headers ∧
      req.body = some (Json.obj
        [("username", Json.str username), ("password", Json.str password)]) :=
  ⟨register_user_request username password base_url, rfl, rfl, rfl,
    by simp [register_user_request], rfl⟩

/-- C6: for every poll id, option id, access token and base address,
`vote_on_poll` issues exactly one request; it is a POST to the base address
joined with `/polls/{poll_id}/vote`, carries an Authorization header whose
value is `Bearer ` followed by the access token, and its body is the JSON
object binding `option_id` to the given option id. -/
theorem vote_on_poll_sends_single_post
    (send : HttpRequest → HttpResponse) (poll_id option_id : Int)
    (access_token base_url : String) :
    ∃ req : HttpRequest,
      (vote_on_poll send poll_id option_id access_token base_url).1 = [req] ∧
      req.method = "POST" ∧
      req.url = base_url ++ "/polls/" ++ toString poll_id ++ "/vote" ∧
      ("Authorization", "Bearer " ++ access_token) ∈ req.headers ∧
      req.body = some (Json.obj [("option_id", Json.num option_id)]) :=
  ⟨vote_on_poll_request poll_id option_id access_token base_url, rfl, rfl, rfl,
    by simp [vote_on_poll_request], rfl⟩

/-- C7: for every integer `skip` and `limit`, including values outside the
documented constraints, `get_polls` issues a GET request to the base address
joined with `/polls` whose query parameters are exactly the given `skip` and
`limit`, with no clamping or adjustment. -/
theorem get_polls_forwards_pagination
    (send : HttpRequest → HttpResponse) (skip limit : Int) (base_url : String) :
    ∃ req : HttpRequest,
      (get_polls send skip limit base_url).1 = [req] ∧
      req.method = "GET" ∧
      req.url = base_url ++ "/polls" ∧
      req.params = [("skip", skip), ("limit", limit)] :=
  ⟨get_polls_request skip limit base_url, rfl, rfl, rfl, rfl⟩

/-- C8: for `register_user`, `vote_on_poll` and `get_poll_results`, a
response whose status is a 1xx, a 2xx other than 200, or a 3xx — neither 200,
nor a specially mapped code, nor in 400..599 — signals no error: the
operation returns the decoded body. -/
theorem non_error_status_returns_body
    (send : HttpRequest → HttpResponse)
    (username password access_token base_url : String)
    (poll_id option_id : Int) (r₁ r₂ r₃ : HttpResponse)
    (hr₁ : send (register_user_request username password base_url) = r₁)
    (hr₂ : send (vote_on_poll_request poll_id option_id access_token base_url) = r₂)
    (hr₃ : send (get_poll_results_request poll_id base_url) = r₃) :
    (100 ≤ r₁.status → r₁.status < 400 → r₁.status ≠ 200 →
      (register_user send username password base_url).2 = Except.ok r₁.body) ∧
    (100 ≤ r₂.status → r₂.status < 400 → r₂.status ≠ 200 →
      (vote_on_poll send poll_id option_id access_token base_url).2 =
        Except.ok r₂.body) ∧
    (100 ≤ r₃.status → r₃.status < 400 → r₃.status ≠ 200 →
      (get_poll_results send poll_id base_url).2 = Except.ok r₃.body) := by
  subst hr₁ hr₂ hr₃
  refine ⟨fun hlo hhi hne => ?_, fun hlo hhi hne => ?_, fun hlo hhi hne => ?_⟩
  · have h400 : (send (register_user_request username password base_url)).status ≠ 400 := by
      omega
    have hnotge : ¬ 400 ≤ (send (register_user_request username password base_url)).status := by
      omega
    simp [register_user, raise_for_status, hne, h400, hnotge]
  · have h401 : (send (vote_on_poll_request poll_id option_id access_token
        base_url)).status ≠ 401 := by omega
    have h404 : (send (vote_on_poll_request poll_id option_id access_token
        base_url)).status ≠ 404 := by omega
    have hnotge : ¬ 400 ≤ (send (vote_on_poll_request poll_id option_id access_token
        base_url)).status := by omega
    simp [vote_on_poll, raise_for_status, hne, h401, h404, hnotge]
  · have h404 : (send (get_poll_results_request poll_id base_url)).status ≠ 404 := by
      omega
    have hnotge : ¬ 400 ≤ (send (get_poll_results_request poll_id base_url)).status := by
      omega
    simp [get_poll_results, raise_for_status, hne, h404, hnotge]

/-- C8 (witness): a transport that always answers 204 No Content makes all
three operations return the decoded body without signalling an error. -/
theorem non_error_status_returns_body_witness :
    (register_user (fun _ => { status := 204, body := Json.null })
        "alice" "pw123" "http://localhost:8000").2 = Except.ok Json.null ∧
    (vote_on_poll (fun _ => { status := 204, body := Json.null })
        1 2 "token123" "http://localhost:8000").2 = Except.ok Json.null ∧
    (get_poll_results (fun _ => { status := 204, body := Json.null })
        1 "http://localhost:8000").2 = Except.ok Json.null :=
  ⟨(non_error_status_returns_body (fun _ => { status := 204, body := Json.null })
      "alice" "pw123" "token123" "http://localhost:8000" 1 2 _ _ _ rfl rfl rfl).1
      (by decide) (by decide) (by decide),
   (non_error_status_returns_body (fun _ => { status := 204, body := Json.null })
      "alice" "pw123" "token123" "http://localhost:8000" 1 2 _ _ _ rfl rfl rfl).2.1
      (by decide) (by decide) (by decide),
   (non_error_status_returns_body (fun _ => { status := 204, body := Json.null })
      "alice" "pw123" "token123" "http://localhost:8000" 1 2 _ _ _ rfl rfl rfl).2.2
      (by decide) (by decide) (by decide)⟩

/-- C9: the three operations perform no local validation: for every argument
values — the quantification includes empty strings and non-positive ids —
the request trace is exactly the one request built from those values, so the
request is always issued and nothing is signalled before it is sent. -/
theorem no_local_input_validation
    (send : HttpRequest → HttpResponse)
    (username password access_token base_url : String)
    (poll_id option_id : Int) :
    (register_user send username password base_url).1 =
      [register_user_request username password base_url] ∧
    (vote_on_poll send poll_id option_id access_token base_url).1 =
      [vote_on_poll_request poll_id option_id access_token base_url] ∧
    (get_poll_results send poll_id base_url).1 =
      [get_poll_results_request poll_id base_url] :=
  ⟨rfl, rfl, rfl⟩

/-- C10: each operation is deterministic in its arguments and the
transport's response: two transports that agree on the request the
operation builds yield equal traces and equal outcomes. -/
theorem operations_deterministic
    (send₁ send₂ : HttpRequest → HttpResponse)
    (username password access_token base_url : String)
    (poll_id option_id skip limit : Int)
    (h₁ : send₁ (register_user_request username password base_url) =
          send₂ (register_user_request username password base_url))
    (h₂ : send₁ (get_polls_request skip limit base_url) =
          send₂ (get_polls_request skip limit base_url))
    (h₃ : send₁ (vote_on_poll_request poll_id option_id access_token base_url) =
          send₂ (vote_on_poll_request poll_id option_id access_token base_url))
    (h₄ : send₁ (get_poll_results_request poll_id base_url) =
          send₂ (get_poll_results_request poll_id base_url)) :
    register_user send₁ username password base_url =
      register_user send₂ username password base_url ∧
    get_polls send₁ skip limit base_url = get_polls send₂ skip limit base_url ∧
    vote_on_poll send₁ poll_id option_id access_token base_url =
      vote_on_poll send₂ poll_id option_id access_token base_url ∧
    get_poll_results send₁ poll_id base_url =
      get_poll_results send₂ poll_id base_url := by
  refine ⟨?_, ?_, ?_, ?_⟩ <;>
    simp [register_user, get_polls, vote_on_poll, get_poll_results,
      h₁, h₂, h₃, h₄]

/-- C10 (witness): the determinism theorem applied to two transports given
by the same response table. -/
theorem operations_deterministic_witness :
    register_user (fun _ => { status := 200, body := Json.null })
        "alice" "pw123" "http://localhost:8000" =
      register_user (fun _ => { status := 200, body := Json.null })
        "alice" "pw123" "http://localhost:8000" ∧
    get_polls (fun _ => { status := 200, body := Json.null }) 0 5
        "http://localhost:8000" =
      get_polls (fun _ => { status := 200, body := Json.null }) 0 5
        "http://localhost:8000" ∧
    vote_on_poll (fun _ => { status := 200, body := Json.null }) 1 2 "token123"
        "http://localhost:8000" =
      vote_on_poll (fun _ => { status := 200, body := Json.null }) 1 2 "token123"
        "http://localhost:8000" ∧
    get_poll_results (fun _ => { status := 200, body := Json.null }) 1
        "http://localhost:8000" =
      get_poll_results (fun _ => { status := 200, body := Json.null }) 1
        "http://localhost:8000" :=
  operations_deterministic
    (fun _ => { status := 200, body := Json.null })
    (fun _ => { status := 200, body := Json.null })
    "alice" "pw123" "token123" "http://localhost:8000" 1 2 0 5
    rfl rfl rfl rfl

end Polly
